import Mathlib

set_option maxHeartbeats 1600000
set_option maxRecDepth 100000

/-!
Formal model of `build_offline_windows_package.py` from the `aider-win`
repository.  The script drives an eight-stage build pipeline
(`AiderWindowsBuilder.build`): workspace setup, virtualenv creation,
dependency installation, a PyInstaller freeze, artifact generation and a
final packaging step, with a `finally` clause running `cleanup`.

External subprocess invocations are modelled by `CmdOutcome` values supplied
through an `Env` record.  The builder state (log lines printed so far, the
ephemeral workspace, the staged executable tree, the output directory
contents) is the `St` record.  Python exceptions are modelled by `Exc`;
`Exc.isException` distinguishes `Exception` subclasses from `SystemExit`
(raised by `sys.exit`), which `except Exception` does not catch while a bare
`except:` does.  Wall-clock time is modelled by a counter that advances at
each stage entry, so a time read in one stage differs from a time read in
another.
-/

/-- Python exceptions raised by the script: `SystemExit` from `sys.exit(1)`
inside `AiderWindowsBuilder.error`, `subprocess.CalledProcessError` from a
checked command, and OS/IO errors from filesystem operations. -/
inductive Exc where
  | systemExit (code : Nat)
  | calledProcessError (returncode : Nat) (stdout stderr : String)
  | ioError (msg : String)
deriving Repr, DecidableEq

/-- Python `Exception` subclasses.  `SystemExit` derives only from
`BaseException`, so `except Exception` does not catch it; a bare `except:`
catches everything. -/
def Exc.isException : Exc → Bool
  | .systemExit _ => false
  | .calledProcessError _ _ _ => true
  | .ioError _ => true

/-- Outcome of one external command run through `subprocess.run`: either exit
status 0 with captured stdout, or a non-zero exit status with captured stdout
and stderr. -/
inductive CmdOutcome where
  | ok (stdout : String)
  | fail (returncode : Nat) (stdout stderr : String)
deriving Repr, DecidableEq

def CmdOutcome.isOk : CmdOutcome → Bool
  | .ok _ => true
  | .fail _ _ _ => false

/-- JSON values appearing in `version_info.json`: strings and lists of
strings. -/
inductive JVal where
  | jstr (s : String)
  | jlist (elems : List String)
deriving Repr, DecidableEq

/-- Mutable state of one `AiderWindowsBuilder` run: the lines printed so far,
the model clock, whether `self.temp_dir` has been assigned and whether that
directory exists on disk, the time recorded at workspace creation, the files
of the staged executable tree (`self.exe_dir`, name/content pairs), the
parsed form of `version_info.json`, and the output directory contents (the
`aider_windows_offline` final directory and the `aider_windows_offline.zip`
archive, each holding a copy of a staged tree when present). -/
structure St where
  log : List String := []
  clock : Nat := 0
  tempDirSet : Bool := false
  tempDirExists : Bool := false
  provisionTime : Option Nat := none
  stagedFiles : List (String × String) := []
  versionInfo : Option (List (String × JVal)) := none
  finalDir : Option (List (String × String)) := none
  archive : Option (List (String × String)) := none
deriving Repr, DecidableEq

/-- Environment of one run: the `pyproject.toml` marker file in the current
directory, the interpreter version string (`sys.version`), the outcome of
each external command the script runs, whether the `shutil.copytree` in the
packaging step hits an IO error, and whether `shutil.rmtree` in `cleanup`
fails (its error being suppressed by `ignore_errors=True`). -/
structure Env where
  markerExists : Bool
  markerContents : String
  pythonVersion : String
  venvCreate : CmdOutcome
  pipUpgrade : CmdOutcome
  pyinstallerInstall : CmdOutcome
  aiderInstall : CmdOutcome
  helpExtra : CmdOutcome
  browserExtra : CmdOutcome
  pyinstallerRun : CmdOutcome
  packageWriteFails : Bool
  rmtreeFails : Bool
deriving Repr, DecidableEq

/-- Infix test on character lists. -/
def listInfix (needle hay : List Char) : Bool :=
  hay.tails.any (fun t => List.isPrefixOf needle t)

/-- Substring test, modelling Python's `needle in hay`. -/
def containsSub (hay needle : String) : Bool := listInfix needle.data hay.data

/-- Path-prefix test: `under root p` holds when `p` starts with `root`,
modelling "lies under the directory `root`". -/
def under (root p : String) : Bool := List.isPrefixOf root.data p.data

/-- The `optional_deps` entries of `install_dependencies` paired with the
outcome the environment assigns to each; the name list is `optional_deps`
(see `extras_of_names`). -/
def extras_of (env : Env) : List (String × CmdOutcome) :=
  [("help", env.helpExtra), ("browser", env.browserExtra)]

/-- Advance the model clock by one stage. -/
def tick (s : St) : St := { s with clock := s.clock + 1 }

/-- Model of `AiderWindowsBuilder.log`: print `[BUILD] message`. -/
def blog (m : String) (s : St) : St := { s with log := s.log ++ ["[BUILD] " ++ m] }

/-- Model of `AiderWindowsBuilder.error`: print `[ERROR] message` and then
call `sys.exit(1)`, which raises `SystemExit(1)`.  Note the exception is
raised by the first statement of any sequence of `error` calls, so later
calls in that sequence never run. -/
def error (m : String) (s : St) : St × Option Exc :=
  ({ s with log := s.log ++ ["[ERROR] " ++ m] }, some (.systemExit 1))

/-- Sequencing of two statements with Python exception propagation: if the
first raises, the second does not run. -/
def seq (f g : St → St × Option Exc) (s : St) : St × Option Exc :=
  match f s with
  | (s1, none) => g s1
  | r => r

/-- Model of `AiderWindowsBuilder.run_command` with `check=True` (every call
site uses the default).  On exit status 0 the captured stdout is logged when
non-empty.  On a non-zero exit status `subprocess.run` raises
`CalledProcessError`; the handler calls `self.error` three times and then
re-raises, but the first `self.error` already raises `SystemExit(1)`, so the
`STDOUT:`/`STDERR:` prints and the `raise` are unreachable. -/
def run_command (cmd : String) (outcome : CmdOutcome) (s : St) : St × Option Exc :=
  let s := blog ("Running: " ++ cmd) s
  match outcome with
  | .ok out =>
      ({ s with log := s.log ++ (if out == "" then [] else ["[BUILD] " ++ out]) }, none)
  | .fail rc out err =>
      seq (error ("Command failed with return code " ++ toString rc))
        (seq (error ("STDOUT: " ++ out))
          (seq (error ("STDERR: " ++ err))
            (fun s2 => (s2, some (.calledProcessError rc out err))))) s

/-- Opening log line of `AiderWindowsBuilder.build`. -/
def log_start (s : St) : St × Option Exc :=
  (blog "🚀 Starting Aider Windows Offline Package Build..." s, none)

/-- Closing log line of `AiderWindowsBuilder.build`. -/
def log_done (s : St) : St × Option Exc :=
  (blog "🎉 Build completed!" s, none)

/-- Condition from `setup_environment`: the current directory holds a
`pyproject.toml` whose contents contain the substring `aider-chat`. -/
def Env.useLocal (env : Env) : Bool :=
  env.markerExists && containsSub env.markerContents "aider-chat"

/-- Model of `AiderWindowsBuilder.setup_environment`: create the ephemeral
workspace with `tempfile.mkdtemp` (recording the creation time), then either
copy the local checkout or download the GitHub archive.  The source-tree
detail of the two branches is modelled separately by `acquire_source`. -/
def setup_environment (env : Env) (s : St) : St × Option Exc :=
  let s := tick s
  let s := blog "Setting up build environment..." s
  let s := { s with tempDirSet := true, tempDirExists := true,
                    provisionTime := some s.clock }
  let branchLine :=
    if env.useLocal then "Detected aider project in current directory, using local source"
    else "Downloading aider source from GitHub..."
  (blog branchLine s, none)

/-- Model of `AiderWindowsBuilder.create_virtual_environment`. -/
def create_virtual_environment (env : Env) (s : St) : St × Option Exc :=
  let s := tick s
  let s := blog "Creating virtual environment..." s
  run_command "python -m venv venv" env.venvCreate s

/-- Model of one iteration of the optional-extras loop in
`install_dependencies`: the install is attempted inside `try ... except:`,
and the bare `except:` catches every exception raised by `run_command`,
including the `SystemExit(1)` raised by `self.error`, then logs and
continues. -/
def install_extra (outcome : CmdOutcome) (dep : String) (s : St) : St × Option Exc :=
  match run_command ("pip install -e .[" ++ dep ++ "]") outcome s with
  | (s1, none) => (s1, none)
  | (s1, some _) =>
      (blog ("Optional dependency " ++ dep ++ " installation failed, skipping") s1, none)

/-- The fixed `optional_deps` list of `install_dependencies`. -/
def optional_deps : List String := ["help", "browser"]

/-- The `for dep in optional_deps:` loop of `install_dependencies`. -/
def install_extras_from : List (String × CmdOutcome) → St → St × Option Exc
  | [], s => (s, none)
  | (dep, outcome) :: rest, s =>
      seq (install_extra outcome dep) (install_extras_from rest) s

/-- Model of `AiderWindowsBuilder.install_dependencies`: upgrade pip, install
PyInstaller, install aider in editable mode (each fatal on failure), then
attempt the optional extras non-fatally. -/
def install_dependencies (env : Env) (s : St) : St × Option Exc :=
  let s := tick s
  let s := blog "Installing dependency packages..." s
  (seq (run_command "python -m pip install --upgrade pip" env.pipUpgrade)
    (seq (run_command "pip install pyinstaller" env.pyinstallerInstall)
      (seq (run_command "pip install -e ." env.aiderInstall)
        (install_extras_from (extras_of env))))) s

/-- Model of `AiderWindowsBuilder.build_executable`: invoke PyInstaller on
the generated spec file; on success the staged tree `self.exe_dir` holds the
frozen single-file executable. -/
def build_executable (env : Env) (s : St) : St × Option Exc :=
  let s := tick s
  let s := blog "Building Windows executable file..." s
  (seq (run_command "python -m PyInstaller --clean --noconfirm aider.spec" env.pyinstallerRun)
    (fun s1 => ({ s1 with stagedFiles := [("aider.exe", "")] }, none))) s

/-- Write (or overwrite) a named file in a staged tree. -/
def upsert (files : List (String × String)) (nm content : String) : List (String × String) :=
  if files.any (fun p => p.1 == nm) then
    files.map (fun p => if p.1 == nm then (nm, content) else p)
  else files ++ [(nm, content)]

/-- The default configuration file written by `create_config_files`, verbatim
from the source. -/
def config_content : String :=
"# Aider Configuration File
# For internal network use, connecting to large model via OpenAI Compatible API

# Basic settings
model: openai/your-model-name
openai-api-base: http://your-internal-api-server:port/v1
openai-api-key: your-api-key

# Optional settings
# max-chat-history-tokens: 4096
# temperature: 0.1
# no-auto-commits: true
# dark-mode: true
"

/-- The model settings file written by `create_config_files`, verbatim from
the source. -/
def model_settings_content : String :=
"# Model Settings File
# Optimization configuration for specific models

- name: openai/your-model-name
  edit_format: diff
  weak_model_name: null
  use_repo_map: true
  send_undo_reply: false
  lazy: false
  reminder: sys
  examples_as_sys_msg: true
  cache_control: false
  caches_by_default: false
  use_system_prompt: true
  use_temperature: true
  streaming: true
  editor_model_name: null
  editor_edit_format: null
  extra_params:
    max_tokens: 4096
"

/-- Model of `AiderWindowsBuilder.create_config_files`: write the fixed
configuration template and the fixed model-settings template into the staged
tree.  Neither content depends on anything in the environment. -/
def create_config_files (s : St) : St × Option Exc :=
  let s := tick s
  let s := blog "Creating configuration files..." s
  let s := { s with stagedFiles := upsert s.stagedFiles ".aider.conf.yml" config_content }
  let settings := upsert s.stagedFiles ".aider.model.settings.yml" model_settings_content
  let s := { s with stagedFiles := settings }
  (s, none)

/-- Model of `AiderWindowsBuilder.create_batch_files`.  The two launcher
scripts are fixed literals; their bodies are abbreviated here since no
property stated below depends on them, only on their presence. -/
def create_batch_files (s : St) : St × Option Exc :=
  let s := tick s
  let s := blog "Creating start script..." s
  let s := { s with stagedFiles := upsert s.stagedFiles "start_aider.bat" "@echo off" }
  let s := { s with stagedFiles := upsert s.stagedFiles "example_start.bat" "@echo off" }
  (s, none)

/-- Model of `AiderWindowsBuilder.get_build_time`: read the wall clock
(`datetime.now().strftime`) at the moment of the call; the reading is
represented by the pipeline clock at that moment. -/
def get_build_time (clock : Nat) : String := toString clock

/-- Model of `AiderWindowsBuilder.create_documentation`.  The README is a
fixed literal except for the embedded `get_build_time()` call; only that
call is modelled since no property below depends on the rest of the text. -/
def create_documentation (s : St) : St × Option Exc :=
  let s := tick s
  let s := blog "Creating usage documentation..." s
  let readme := upsert s.stagedFiles "README.md" ("Build Time: " ++ get_build_time s.clock)
  let s := { s with stagedFiles := readme }
  (s, none)

/-- The `version_info` dict written by `create_final_package`, with its keys
in source order. -/
def version_info_record (buildTime pythonVersion : String) : List (String × JVal) :=
  [("build_time", .jstr buildTime),
   ("python_version", .jstr pythonVersion),
   ("platform", .jstr "Windows"),
   ("components", .jlist ["aider", "python_dependencies"]),
   ("usage", .jstr "Internal network with OpenAI Compatible API")]

def renderJVal : JVal → String
  | .jstr s => "\"" ++ s ++ "\""
  | .jlist xs => "[" ++ String.intercalate ", " (xs.map (fun x => "\"" ++ x ++ "\"")) ++ "]"

/-- Serialization of the version record by `json.dump`. -/
def renderVersionInfo (r : List (String × JVal)) : String :=
  "\x7b" ++ String.intercalate ", " (r.map (fun p => "\"" ++ p.1 ++ "\": " ++ renderJVal p.2)) ++ "\x7d"

/-- Model of `shutil.copytree(self.exe_dir, final_dir)`: copying fails when
the destination already exists (hence the preceding `rmtree`), and may fail
with an injected IO error. -/
def copytree_to_final (env : Env) (tree : List (String × String)) :
    Option (List (String × String)) → Except Exc (List (String × String))
  | some _ => .error (.ioError "FileExistsError")
  | none =>
      if env.packageWriteFails then .error (.ioError "copytree failed") else .ok tree

/-- Model of `AiderWindowsBuilder.create_final_package`: ensure the output
directory exists, write `version_info.json` (reading the wall clock here, at
Packager invocation) into the staged tree, remove any existing
`aider_windows_offline` final directory, copy the staged tree there, remove
any existing `aider_windows_offline.zip`, and archive the copied tree. -/
def create_final_package (env : Env) (s : St) : St × Option Exc :=
  let s := tick s
  let s := blog "Creating final release package..." s
  let staged := upsert s.stagedFiles "version_info.json"
      (renderVersionInfo (version_info_record (get_build_time s.clock) env.pythonVersion))
  let s := { s with stagedFiles := staged,
                    versionInfo := some (version_info_record (get_build_time s.clock) env.pythonVersion) }
  let s := if s.finalDir.isSome then { s with finalDir := none } else s
  match copytree_to_final env staged s.finalDir with
  | .error e => (s, some e)
  | .ok copied =>
      let s := { s with finalDir := some copied }
      let s := if s.archive.isSome then { s with archive := none } else s
      let s := { s with archive := some copied }
      (blog "✅ Offline package created successfully!" s, none)

/-- Model of `AiderWindowsBuilder.cleanup`: when `self.temp_dir` is assigned
and the directory still exists, log and `shutil.rmtree` it with
`ignore_errors=True`, so a removal failure is suppressed; otherwise do
nothing.  It never raises. -/
def cleanup (rmFails : Bool) (s : St) : St × Option Exc :=
  if s.tempDirSet && s.tempDirExists then
    let s := blog "Cleaning up temporary files..." s
    if rmFails then (s, none) else ({ s with tempDirExists := false }, none)
  else (s, none)

def excMessage : Exc → String
  | .systemExit c => "SystemExit(" ++ toString c ++ ")"
  | .calledProcessError rc _ _ => "CalledProcessError(" ++ toString rc ++ ")"
  | .ioError m => m

/-- Stages of the `try` body of `AiderWindowsBuilder.build` after workspace
setup, in source order. -/
def pipeline_rest (env : Env) : St → St × Option Exc :=
  seq (create_virtual_environment env)
    (seq (install_dependencies env)
      (seq (build_executable env)
        (seq create_config_files
          (seq create_batch_files
            (seq create_documentation
              (seq (create_final_package env) log_done))))))

/-- The `try` body of `AiderWindowsBuilder.build`: the eight stages in
source order, bracketed by the start/done log lines. -/
def pipeline (env : Env) : St → St × Option Exc :=
  seq log_start (seq (setup_environment env) (pipeline_rest env))

/-- The `except Exception as e:` clause of `AiderWindowsBuilder.build`: an
ordinary exception is turned into `self.error("Build failed: ...")`, which
prints and raises `SystemExit(1)`; a `SystemExit` (not an `Exception`)
passes through untouched. -/
def handle_exc (r : St × Option Exc) : St × Option Exc :=
  match r.2 with
  | some e => if e.isException then error ("Build failed: " ++ excMessage e) r.1 else r
  | none => r

/-- The `finally:` clause of `AiderWindowsBuilder.build`: `cleanup` runs on
the state in every case; an exception raised by the `finally` body would
replace the pending one, and otherwise the pending exception propagates. -/
def finally_cleanup (rmFails : Bool) (r2 : St × Option Exc) : St × Option Exc :=
  ((cleanup rmFails r2.1).1,
   match (cleanup rmFails r2.1).2 with | some e2 => some e2 | none => r2.2)

/-- Model of `AiderWindowsBuilder.build`: run the stage sequence, apply the
`except Exception` clause, then the `finally` clause. -/
def build (env : Env) : St × Option Exc :=
  finally_cleanup env.rmtreeFails (handle_exc (pipeline env {}))

/-- Process exit status of `python build_offline_windows_package.py`: 0 when
`build` returns normally, the carried code when a `SystemExit` escapes, 1
when any other exception escapes (none can, in this model). -/
def exitCode (env : Env) : Nat :=
  match (build env).2 with
  | none => 0
  | some (.systemExit c) => c
  | some _ => 1

/-- All fatal-capable steps succeed: the five checked external commands exit
with status 0 and the packaging copy does not hit an IO error. -/
def successEnv (env : Env) : Bool :=
  env.venvCreate.isOk && env.pipUpgrade.isOk && env.pyinstallerInstall.isOk &&
  env.aiderInstall.isOk && env.pyinstallerRun.isOk && !env.packageWriteFails

def fileLookup (files : List (String × String)) (nm : String) : Option String :=
  (files.find? (fun p => p.1 == nm)).map Prod.snd

def lookupJ (r : List (String × JVal)) (k : String) : Option JVal :=
  (r.find? (fun p => p.1 == k)).map Prod.snd

/-- Split a character list at newline characters. -/
def splitLines : List Char → List (List Char)
  | [] => [[]]
  | c :: cs =>
      match splitLines cs with
      | [] => [[c]]
      | h :: t => if c == '\n' then [] :: h :: t else (c :: h) :: t

/-- Value of a `key: value` line in a generated YAML-style template. -/
def yamlValue (content key : String) : Option String :=
  (splitLines content.data).findSome? (fun line =>
    if List.isPrefixOf (key ++ ": ").data line then
      some (String.mk (line.drop (key.length + 2)))
    else none)

/-- PyInstaller data-file mappings contributed by the tiktoken probe inside
the generated spec file: when tiktoken is importable and its `data`
directory exists, each `*.tiktoken` encoding file is mapped into
`tiktoken/data/`, with the whole directory as fallback when no such file is
found; when tiktoken is missing the list is empty. -/
structure TiktokenInfo where
  dataDirExists : Bool
  dataDir : String
  encodingFiles : List String
deriving Repr, DecidableEq

def tiktoken_datas : Option TiktokenInfo → List (String × String)
  | none => []
  | some info =>
      if info.dataDirExists then
        let files := info.encodingFiles.map
          (fun f => (info.dataDir ++ "/" ++ f, "tiktoken/data/" ++ f))
        if files.isEmpty then [(info.dataDir, "tiktoken/data")] else files
      else []

/-- The `datas` list of the generated PyInstaller spec file
(`create_spec_file`): the two resource directories under the source tree,
followed by the tiktoken mappings. -/
def datas (sourcePath : String) (tk : Option TiktokenInfo) : List (String × String) :=
  [(sourcePath ++ "/aider/resources", "aider/resources"),
   (sourcePath ++ "/aider/queries", "aider/queries")] ++ tiktoken_datas tk

/-- The fixed GitHub archive URL of `setup_environment`. -/
def remote_url : String := "https://github.com/paul-gauthier/aider/archive/main.zip"

/-- The `shutil.ignore_patterns` arguments of the local-copy branch. -/
def ignore_patterns : List String := ["__pycache__", "*.pyc", "dist", "build"]

/-- Result of the source-acquisition branch of `setup_environment`: either a
copy of the local checkout into the workspace, or a download of the fixed
archive with the chosen source root. -/
inductive SourceAcquisition where
  | localCopy (dest : String) (ignored : List String)
  | remoteFetch (url : String) (sourceRoot : String)
deriving Repr, DecidableEq

/-- The source-acquisition logic of `setup_environment` (lines 72-87): if the
current directory has a `pyproject.toml` containing `aider-chat`, copy the
local tree into `<temp>/aider_source` with the build/cache ignore patterns;
otherwise download the fixed archive and use `<temp>/aider-main` as source
root. -/
def acquire_source (markerExists : Bool) (markerContents tempDir : String) : SourceAcquisition :=
  if markerExists && containsSub markerContents "aider-chat" then
    .localCopy (tempDir ++ "/aider_source") ignore_patterns
  else
    .remoteFetch remote_url (tempDir ++ "/aider-main")

/-- A zip archive, as the list of its entry paths. -/
structure ZipArchive where
  entries : List String
deriving Repr, DecidableEq

/-- First path component of an archive entry. -/
def topComponent (p : String) : String := String.mk (p.data.takeWhile (fun c => c != '/'))

def dedupFirst (l : List String) : List String :=
  l.foldl (fun acc x => if x ∈ acc then acc else acc ++ [x]) []

/-- The distinct top-level names of an archive, in order of first
appearance. -/
def topLevelDirs (z : ZipArchive) : List String :=
  dedupFirst (z.entries.map topComponent)

/-- Projection of the workspace-related fields of a state: whether
`self.temp_dir` is assigned, whether its directory exists, and the recorded
provisioning time. -/
def stableView (s : St) : Bool × Bool × Option Nat :=
  (s.tempDirSet, s.tempDirExists, s.provisionTime)

def PreservesStable (f : St → St × Option Exc) : Prop :=
  ∀ s, stableView (f s).1 = stableView s

/-- Environment in which every external command succeeds and no filesystem
fault is injected. -/
def envAllOk : Env :=
  { markerExists := true, markerContents := "name = aider-chat", pythonVersion := "3.11.0",
    venvCreate := .ok "", pipUpgrade := .ok "pip upgraded", pyinstallerInstall := .ok "",
    aiderInstall := .ok "installed", helpExtra := .ok "", browserExtra := .ok "",
    pyinstallerRun := .ok "frozen", packageWriteFails := false, rmtreeFails := false }

/-- Environment in which the editable install of aider exits with status 2
and captured output. -/
def envAiderFails : Env :=
  { envAllOk with aiderInstall := .fail 2 "captured-out" "captured-err" }

/-- Environment in which both optional-extra installs fail. -/
def envExtrasFail : Env :=
  { envAllOk with helpExtra := .fail 1 "help-out" "help-err",
                  browserExtra := .fail 1 "browser-out" "browser-err" }

/-- Fields of the version-metadata record at a fixed concrete input. -/
def viSample : List (String × JVal) := version_info_record (get_build_time 8) "3.11.0"

/-- A tiktoken installation as the spec-file probe finds it inside the build
virtualenv: the probed data directory lies under the venv's site-packages,
not under the acquired source tree. -/
def tkProbe : TiktokenInfo :=
  { dataDirExists := true,
    dataDir := "/tmp/aider_build_k/venv/lib/python3.10/site-packages/tiktoken/data",
    encodingFiles := ["cl100k_base.tiktoken"] }

/-- A state left behind by an earlier packaging run: the output directory
already holds a final directory and an archive with stale content. -/
def stStale : St :=
  { stagedFiles := [("aider.exe", "")],
    finalDir := some [("stale.txt", "old")],
    archive := some [("stale.zip", "old")] }

/-- The archive served for the fixed URL: GitHub's `archive/main.zip` for
the `aider` repository extracts to the single top-level directory
`aider-main`. -/
def zMain : ZipArchive := ⟨["aider-main/pyproject.toml", "aider-main/aider/main.py"]⟩

/-- A builder state in which the workspace was never created: `self.temp_dir`
is still `None`. -/
def stNoTemp : St := {}


/-! Helper lemmas about the sequencing combinator and the individual
stages. -/

theorem extras_of_names (env : Env) : (extras_of env).map Prod.fst = optional_deps := rfl

theorem seq_eval_none {f g : St → St × Option Exc} {s s1 : St} (h : f s = (s1, none)) :
    seq f g s = g s1 := by
  unfold seq
  rw [h]

theorem seq_eval_some {f g : St → St × Option Exc} {s s1 : St} {e : Exc}
    (h : f s = (s1, some e)) : seq f g s = (s1, some e) := by
  unfold seq
  rw [h]

theorem seq_snd_none_iff (f g : St → St × Option Exc) (s : St) :
    (seq f g s).2 = none ↔ ((f s).2 = none ∧ (g (f s).1).2 = none) := by
  unfold seq
  rcases hf : f s with ⟨s1, e⟩
  cases e <;> simp

theorem seq_snd_some {f g : St → St × Option Exc} {s : St} {e : Exc}
    (h : (seq f g s).2 = some e) :
    (f s).2 = some e ∨ (g (f s).1).2 = some e := by
  unfold seq at h
  rcases hf : f s with ⟨s1, e1⟩
  rw [hf] at h
  cases e1 <;> simp_all

theorem log_start_snd (s : St) : (log_start s).2 = none := rfl

theorem log_done_snd (s : St) : (log_done s).2 = none := rfl

theorem setup_snd (env : Env) (s : St) : (setup_environment env s).2 = none := rfl

theorem run_command_snd (c : String) (o : CmdOutcome) (s : St) :
    (run_command c o s).2 = none ↔ o.isOk = true := by
  cases o <;> simp [run_command, seq, error, CmdOutcome.isOk]

theorem run_command_shape (c : String) (o : CmdOutcome) (s : St) (e : Exc)
    (h : (run_command c o s).2 = some e) : e = .systemExit 1 := by
  cases o <;> simp [run_command, seq, error] at h
  exact h.symm

theorem run_command_fail_eq (c : String) (rc : Nat) (out err : String) (s : St) :
    run_command c (.fail rc out err) s =
      ({ s with log := s.log ++ ["[BUILD] " ++ ("Running: " ++ c),
          "[ERROR] " ++ ("Command failed with return code " ++ toString rc)] },
       some (.systemExit 1)) := by
  simp [run_command, seq, error, blog]

theorem install_extra_snd (o : CmdOutcome) (d : String) (s : St) :
    (install_extra o d s).2 = none := by
  cases o <;> simp [install_extra, run_command, seq, error, blog]

theorem install_extras_from_snd (l : List (String × CmdOutcome)) (s : St) :
    (install_extras_from l s).2 = none := by
  induction l generalizing s with
  | nil => rfl
  | cons hd tl ih =>
      rcases hd with ⟨d, o⟩
      rcases he : install_extra o d s with ⟨s1, e⟩
      have h2 := install_extra_snd o d s
      rw [he] at h2
      simp only at h2
      subst h2
      simpa [install_extras_from, seq_eval_none he] using ih s1

theorem install_dependencies_snd (env : Env) (s : St) :
    (install_dependencies env s).2 = none ↔
      (env.pipUpgrade.isOk = true ∧ env.pyinstallerInstall.isOk = true ∧
       env.aiderInstall.isOk = true) := by
  simp [install_dependencies, seq_snd_none_iff, run_command_snd, install_extras_from_snd]

theorem build_executable_snd (env : Env) (s : St) :
    (build_executable env s).2 = none ↔ env.pyinstallerRun.isOk = true := by
  simp [build_executable, seq_snd_none_iff, run_command_snd]

theorem create_config_files_snd (s : St) : (create_config_files s).2 = none := rfl

theorem create_batch_files_snd (s : St) : (create_batch_files s).2 = none := rfl

theorem create_documentation_snd (s : St) : (create_documentation s).2 = none := rfl

theorem create_final_package_snd (env : Env) (s : St) :
    (create_final_package env s).2 = none ↔ env.packageWriteFails = false := by
  rcases hf : s.finalDir with _ | fd <;> rcases hp : env.packageWriteFails <;>
    rcases ha : s.archive with _ | ar <;>
    simp [create_final_package, copytree_to_final, hf, hp, ha, blog, tick]

theorem create_final_package_shape (env : Env) (s : St) (e : Exc)
    (h : (create_final_package env s).2 = some e) : ∃ m, e = .ioError m := by
  rcases hf : s.finalDir with _ | fd <;> rcases hp : env.packageWriteFails <;>
    rcases ha : s.archive with _ | ar <;>
    simp [create_final_package, copytree_to_final, hf, hp, ha, blog, tick] at h <;>
    exact ⟨_, h.symm⟩

theorem cleanup_snd (b : Bool) (s : St) : (cleanup b s).2 = none := by
  unfold cleanup
  split
  · split <;> rfl
  · rfl

theorem pipeline_snd (env : Env) (s : St) :
    (pipeline env s).2 = none ↔ successEnv env = true := by
  simp [pipeline, pipeline_rest, seq_snd_none_iff, log_start_snd, log_done_snd, setup_snd,
    install_dependencies_snd, build_executable_snd, create_config_files_snd,
    create_batch_files_snd, create_documentation_snd, create_final_package_snd,
    create_virtual_environment, run_command_snd, successEnv, Bool.and_eq_true]
  tauto

theorem pipeline_shape (env : Env) (s : St) (e : Exc)
    (h : (pipeline env s).2 = some e) :
    e = .systemExit 1 ∨ ∃ m, e = .ioError m := by
  unfold pipeline at h
  rcases seq_snd_some h with h1 | h1
  · simp [log_start_snd] at h1
  rcases seq_snd_some h1 with h2 | h2
  · simp [setup_snd] at h2
  unfold pipeline_rest at h2
  rcases seq_snd_some h2 with h3 | h3
  · exact .inl (run_command_shape _ _ _ _ h3)
  rcases seq_snd_some h3 with h4 | h4
  · left
    unfold install_dependencies at h4
    rcases seq_snd_some h4 with h5 | h5
    · exact run_command_shape _ _ _ _ h5
    rcases seq_snd_some h5 with h6 | h6
    · exact run_command_shape _ _ _ _ h6
    rcases seq_snd_some h6 with h7 | h7
    · exact run_command_shape _ _ _ _ h7
    · simp [install_extras_from_snd] at h7
  rcases seq_snd_some h4 with h5 | h5
  · left
    unfold build_executable at h5
    rcases seq_snd_some h5 with h6 | h6
    · exact run_command_shape _ _ _ _ h6
    · simp at h6
  rcases seq_snd_some h5 with h6 | h6
  · simp [create_config_files_snd] at h6
  rcases seq_snd_some h6 with h7 | h7
  · simp [create_batch_files_snd] at h7
  rcases seq_snd_some h7 with h8 | h8
  · simp [create_documentation_snd] at h8
  rcases seq_snd_some h8 with h9 | h9
  · exact .inr (create_final_package_shape _ _ _ h9)
  · simp [log_done_snd] at h9

theorem handle_exc_none {r : St × Option Exc} (h : r.2 = none) : handle_exc r = r := by
  unfold handle_exc
  rw [h]

theorem finally_cleanup_eq (b : Bool) (r2 : St × Option Exc) :
    finally_cleanup b r2 = ((cleanup b r2.1).1, r2.2) := by
  unfold finally_cleanup
  rcases hc : cleanup b r2.1 with ⟨s2, e2⟩
  have h2 := cleanup_snd b r2.1
  rw [hc] at h2
  simp only at h2
  subst h2
  rfl

theorem build_snd (env : Env) :
    (build env).2 = (handle_exc (pipeline env {})).2 := by
  rw [build, finally_cleanup_eq]

theorem exitCode_zero_iff (env : Env) : exitCode env = 0 ↔ successEnv env = true := by
  unfold exitCode
  rw [build_snd]
  rcases hp : (pipeline env {}).2 with _ | ex
  · rw [handle_exc_none]
    · rw [hp]
      simp [← pipeline_snd env ({} : St), hp]
    · exact hp
  · have hsh := pipeline_shape env {} ex hp
    have hns : ¬ (successEnv env = true) := by
      rw [← pipeline_snd env ({} : St), hp]
      simp
    rcases hsh with h | ⟨m, h⟩ <;> subst h <;>
      simp [handle_exc, hp, error, Exc.isException, hns]

theorem exitCode_one (env : Env) (h : successEnv env = false) : exitCode env = 1 := by
  unfold exitCode
  rw [build_snd]
  rcases hp : (pipeline env {}).2 with _ | ex
  · exfalso
    have := (pipeline_snd env ({} : St)).mp hp
    rw [h] at this
    exact Bool.false_ne_true this
  · have hsh := pipeline_shape env {} ex hp
    rcases hsh with h2 | ⟨m, h2⟩ <;> subst h2 <;>
      simp [handle_exc, hp, error, Exc.isException]

/-! Preservation of the workspace fields: no stage after `setup_environment`
touches `temp_dir`, its on-disk directory, or the provisioning timestamp. -/

theorem preserves_seq {f g : St → St × Option Exc}
    (hf : PreservesStable f) (hg : PreservesStable g) : PreservesStable (seq f g) := by
  intro s
  rcases hfs : f s with ⟨s1, e⟩
  have h1 := hf s
  rw [hfs] at h1
  cases e
  · rw [seq_eval_none hfs, hg s1]
    exact h1
  · rw [seq_eval_some hfs]
    exact h1

theorem ps_run_command (c : String) (o : CmdOutcome) : PreservesStable (run_command c o) := by
  intro s
  cases o <;> simp [run_command, seq, error, blog, stableView]

theorem ps_install_extra (o : CmdOutcome) (d : String) : PreservesStable (install_extra o d) := by
  intro s
  cases o <;> simp [install_extra, run_command, seq, error, blog, stableView]

theorem ps_install_extras_from (l : List (String × CmdOutcome)) :
    PreservesStable (install_extras_from l) := by
  induction l with
  | nil => intro s; rfl
  | cons hd tl ih =>
      rcases hd with ⟨d, o⟩
      intro s
      exact preserves_seq (ps_install_extra o d) ih s

theorem ps_install_dependencies (env : Env) : PreservesStable (install_dependencies env) := by
  intro s
  unfold install_dependencies
  exact (preserves_seq (ps_run_command _ _)
    (preserves_seq (ps_run_command _ _)
      (preserves_seq (ps_run_command _ _) (ps_install_extras_from _))) _)

theorem ps_build_executable (env : Env) : PreservesStable (build_executable env) := by
  intro s
  unfold build_executable
  exact (preserves_seq (ps_run_command _ _) (fun s1 => rfl) _)

theorem ps_create_config_files : PreservesStable create_config_files := fun _ => rfl

theorem ps_create_batch_files : PreservesStable create_batch_files := fun _ => rfl

theorem ps_create_documentation : PreservesStable create_documentation := fun _ => rfl

theorem ps_log_done : PreservesStable log_done := fun _ => rfl

theorem ps_create_final_package (env : Env) : PreservesStable (create_final_package env) := by
  intro s
  rcases hf : s.finalDir with _ | fd <;> rcases hp : env.packageWriteFails <;>
    rcases ha : s.archive with _ | ar <;>
    simp [create_final_package, copytree_to_final, hf, hp, ha, blog, tick, stableView]

theorem ps_pipeline_rest (env : Env) : PreservesStable (pipeline_rest env) := by
  intro s
  unfold pipeline_rest
  exact (preserves_seq (ps_run_command _ _)
    (preserves_seq (ps_install_dependencies env)
      (preserves_seq (ps_build_executable env)
        (preserves_seq ps_create_config_files
          (preserves_seq ps_create_batch_files
            (preserves_seq ps_create_documentation
              (preserves_seq (ps_create_final_package env) ps_log_done)))))) _)

theorem seq_eval_snd_none {f g : St → St × Option Exc} {s : St}
    (h : (f s).2 = none) : seq f g s = g (f s).1 := by
  rcases hf : f s with ⟨s1, e⟩
  rw [hf] at h
  simp only at h
  subst h
  rw [seq_eval_none hf]

theorem setup_stable (env : Env) (s : St) :
    stableView (setup_environment env s).1 = (true, true, some (s.clock + 1)) := rfl

theorem pipeline_stable (env : Env) :
    stableView (pipeline env ({} : St)).1 = (true, true, some 1) := by
  unfold pipeline
  rw [seq_eval_snd_none (log_start_snd ({} : St))]
  rw [seq_eval_snd_none (setup_snd env _)]
  rw [ps_pipeline_rest env _]
  rw [setup_stable env _]
  rfl

theorem handle_exc_stable (r : St × Option Exc) :
    stableView (handle_exc r).1 = stableView r.1 := by
  unfold handle_exc
  rcases hr : r.2 with _ | e
  · rfl
  · cases hex : e.isException <;> simp [hex, error, stableView]

theorem stableView_fields {s : St} {a b : Bool} {t : Option Nat}
    (h : stableView s = (a, b, t)) :
    s.tempDirSet = a ∧ s.tempDirExists = b ∧ s.provisionTime = t := by
  simp [stableView, Prod.ext_iff] at h
  tauto

theorem cleanup_run_eq (s : St) (h1 : s.tempDirSet = true) (h2 : s.tempDirExists = true) :
    cleanup false s =
      ({ s with log := s.log ++ ["[BUILD] Cleaning up temporary files..."],
                tempDirExists := false }, none) := by
  simp [cleanup, h1, h2, blog]

theorem build_temp_removed (env : Env) (h : env.rmtreeFails = false) :
    (build env).1.tempDirExists = false ∧
    "[BUILD] Cleaning up temporary files..." ∈ (build env).1.log := by
  have hx : stableView (handle_exc (pipeline env {})).1 = (true, true, some 1) := by
    rw [handle_exc_stable, pipeline_stable]
  obtain ⟨h1, h2, h3⟩ := stableView_fields hx
  rw [build, h, finally_cleanup_eq, cleanup_run_eq _ h1 h2]
  refine ⟨rfl, ?_⟩
  simp

theorem cleanup_preserves (b : Bool) (s : St) :
    (cleanup b s).1.provisionTime = s.provisionTime ∧
    (cleanup b s).1.versionInfo = s.versionInfo ∧
    (cleanup b s).1.stagedFiles = s.stagedFiles ∧
    (cleanup b s).1.archive = s.archive := by
  unfold cleanup blog
  split
  · split <;> simp
  · simp

theorem isOk_ok {o : CmdOutcome} (h : o.isOk = true) : ∃ out, o = .ok out := by
  cases o <;> simp [CmdOutcome.isOk] at h ⊢

theorem successEnv_parts {env : Env} (h : successEnv env = true) :
    env.venvCreate.isOk = true ∧ env.pipUpgrade.isOk = true ∧
    env.pyinstallerInstall.isOk = true ∧ env.aiderInstall.isOk = true ∧
    env.pyinstallerRun.isOk = true ∧ env.packageWriteFails = false := by
  simp [successEnv, Bool.and_eq_true] at h
  tauto

theorem pipeline_success_fields (env : Env) (h : successEnv env = true) :
    (pipeline env {}).1.versionInfo
        = some (version_info_record (get_build_time 8) env.pythonVersion) ∧
    (pipeline env {}).1.archive = some ((pipeline env {}).1.stagedFiles) ∧
    fileLookup (pipeline env {}).1.stagedFiles ".aider.conf.yml" = some config_content ∧
    fileLookup (pipeline env {}).1.stagedFiles ".aider.model.settings.yml"
        = some model_settings_content := by
  obtain ⟨hv, hp, hpy, ha, hr, hw⟩ := successEnv_parts h
  obtain ⟨o1, e1⟩ := isOk_ok hv
  obtain ⟨o2, e2⟩ := isOk_ok hp
  obtain ⟨o3, e3⟩ := isOk_ok hpy
  obtain ⟨o4, e4⟩ := isOk_ok ha
  obtain ⟨o5, e5⟩ := isOk_ok hr
  cases hh : env.helpExtra <;> cases hb : env.browserExtra <;>
    simp [pipeline, pipeline_rest, seq, log_start, setup_environment,
      create_virtual_environment, install_dependencies, install_extras_from, extras_of,
      install_extra, build_executable, create_config_files, create_batch_files,
      create_documentation, create_final_package, copytree_to_final, run_command, blog,
      tick, error, upsert, fileLookup, e1, e2, e3, e4, e5, hh, hb, hw, log_done]

theorem build_success_fields (env : Env) (h : successEnv env = true) :
    (build env).2 = none ∧
    (build env).1.versionInfo
      = some (version_info_record (get_build_time 8) env.pythonVersion) ∧
    (build env).1.provisionTime = some 1 ∧
    (build env).1.archive = some ((build env).1.stagedFiles) ∧
    fileLookup (build env).1.stagedFiles ".aider.conf.yml" = some config_content ∧
    fileLookup (build env).1.stagedFiles ".aider.model.settings.yml"
      = some model_settings_content := by
  have hpn : (pipeline env {}).2 = none := (pipeline_snd env _).mpr h
  have hx : handle_exc (pipeline env {}) = pipeline env {} := handle_exc_none hpn
  obtain ⟨f1, f2, f3, f4⟩ := pipeline_success_fields env h
  have hprov : (pipeline env {}).1.provisionTime = some 1 :=
    (stableView_fields (pipeline_stable env)).2.2
  obtain ⟨c1, c2, c3, c4⟩ := cleanup_preserves env.rmtreeFails (pipeline env {}).1
  rw [build, finally_cleanup_eq, hx]
  exact ⟨hpn, by rw [c2, f1], by rw [c1, hprov], by rw [c4, c3, f2],
    by rw [c3]; exact f3, by rw [c3]; exact f4⟩

/-- C1: the claim states that for every external command invocation that
fails with check enabled, the pipeline prints the captured stdout and stderr
of that command before the process terminates.  The code does not: in
`run_command` the handler calls `self.error` first with the return-code
message, and `error` exits via `sys.exit(1)` immediately, so the
`STDOUT:`/`STDERR:` prints at lines 59-60 of the source are unreachable dead
code.  Concretely, when the editable install fails with captured output
`captured-out`/`captured-err`, the process terminates with status 1 and no
printed line contains either captured text. -/
theorem C1_failed_command_output_not_printed :
    exitCode envAiderFails = 1 ∧
    "[ERROR] Command failed with return code 2" ∈ (build envAiderFails).1.log ∧
    (build envAiderFails).1.log.all
      (fun l => !(containsSub l "captured-out") && !(containsSub l "captured-err")) = true := by
  decide

/-- C2: for every entry of the optional-extras list (`help`, `browser`), a
failure of that entry's install is caught (by the bare `except:`, which also
catches the `SystemExit` raised inside `run_command`) and logged, does not
abort `install_dependencies`, the loop continues to the next entry, and the
pipeline still reaches the packaging stage and produces the final archive. -/
theorem C2_optional_extras_nonfatal (env : Env)
    (h1 : env.pipUpgrade.isOk = true) (h2 : env.pyinstallerInstall.isOk = true)
    (h3 : env.aiderInstall.isOk = true) :
    (∀ s, (install_dependencies env s).2 = none) ∧
    (∀ s rc o e, env.helpExtra = .fail rc o e →
        "[BUILD] Optional dependency help installation failed, skipping"
          ∈ (install_dependencies env s).1.log ∧
        "[BUILD] Running: pip install -e .[browser]"
          ∈ (install_dependencies env s).1.log) ∧
    (∀ s rc o e, env.browserExtra = .fail rc o e →
        "[BUILD] Optional dependency browser installation failed, skipping"
          ∈ (install_dependencies env s).1.log) ∧
    (env.venvCreate.isOk = true → env.pyinstallerRun.isOk = true →
      env.packageWriteFails = false →
      exitCode env = 0 ∧ (build env).1.archive.isSome = true) := by
  obtain ⟨o2, e2⟩ := isOk_ok h1
  obtain ⟨o3, e3⟩ := isOk_ok h2
  obtain ⟨o4, e4⟩ := isOk_ok h3
  refine ⟨fun s => (install_dependencies_snd env s).mpr ⟨h1, h2, h3⟩, ?_, ?_, ?_⟩
  · intro s rc o e hfail
    cases hb : env.browserExtra <;>
      simp [install_dependencies, install_extras_from, extras_of, install_extra,
        run_command, seq, error, blog, e2, e3, e4, hfail, hb]
  · intro s rc o e hfail
    cases hh : env.helpExtra <;>
      simp [install_dependencies, install_extras_from, extras_of, install_extra,
        run_command, seq, error, blog, e2, e3, e4, hfail, hh]
  · intro hv hr hw
    have hs : successEnv env = true := by
      simp [successEnv, h1, h2, h3, hv, hr, hw]
    obtain ⟨b1, b2, b3, b4, b5, b6⟩ := build_success_fields env hs
    exact ⟨(exitCode_zero_iff env).mpr hs, by rw [b4]; rfl⟩

/-- C2 witness: with both extras failing and everything else succeeding, the
dependency stage raises nothing, both skip messages are logged, the exit
status is 0 and the final archive exists. -/
theorem C2_optional_extras_nonfatal_witness :
    (install_dependencies envExtrasFail {}).2 = none ∧
    "[BUILD] Optional dependency help installation failed, skipping"
      ∈ (install_dependencies envExtrasFail {}).1.log ∧
    "[BUILD] Optional dependency browser installation failed, skipping"
      ∈ (install_dependencies envExtrasFail {}).1.log ∧
    exitCode envExtrasFail = 0 ∧ (build envExtrasFail).1.archive.isSome = true := by
  have h := C2_optional_extras_nonfatal envExtrasFail (by decide) (by decide) (by decide)
  exact ⟨h.1 {},
    (h.2.1 {} 1 "help-out" "help-err" (by decide)).1,
    h.2.2.1 {} 1 "browser-out" "browser-err" (by decide),
    (h.2.2.2 (by decide) (by decide) (by decide)).1,
    (h.2.2.2 (by decide) (by decide) (by decide)).2⟩

/-- C3: cleanup is invoked on every pipeline run via the `finally` clause:
whatever the command outcomes and injected faults, as long as the removal
itself succeeds, the cleanup message is printed and the ephemeral workspace
directory no longer exists in the final state; in particular after a fault
in the dependency-install stage or the executable-build stage the process
terminates with status 1 and the workspace directory is gone. -/
theorem C3_cleanup_always_runs (env : Env) (h : env.rmtreeFails = false) :
    "[BUILD] Cleaning up temporary files..." ∈ (build env).1.log ∧
    (build env).1.tempDirExists = false ∧
    ((env.aiderInstall.isOk = false ∨ env.pipUpgrade.isOk = false ∨
      env.pyinstallerInstall.isOk = false ∨ env.pyinstallerRun.isOk = false) →
      exitCode env = 1 ∧ (build env).1.tempDirExists = false) := by
  obtain ⟨ht, hm⟩ := build_temp_removed env h
  refine ⟨hm, ht, fun hf => ⟨?_, ht⟩⟩
  apply exitCode_one
  rcases hf with hf | hf | hf | hf <;> simp [successEnv, hf]

/-- C3 witness: with the aider editable install failing, the cleanup message
is printed, the workspace is gone and the exit status is 1. -/
theorem C3_cleanup_always_runs_witness :
    "[BUILD] Cleaning up temporary files..." ∈ (build envAiderFails).1.log ∧
    (build envAiderFails).1.tempDirExists = false ∧
    exitCode envAiderFails = 1 := by
  have h := C3_cleanup_always_runs envAiderFails (by decide)
  exact ⟨h.1, h.2.1, (h.2.2 (.inl (by decide))).1⟩

/-- C4: the process exit status is 0 exactly when every fatal-capable step
succeeds; on any fatal stage failure the status is 1 and cleanup has run
before termination (the final state already reflects the workspace
removal). -/
theorem C4_exit_status (env : Env) :
    (exitCode env = 0 ↔ successEnv env = true) ∧
    (successEnv env = false →
      exitCode env = 1 ∧
      (env.rmtreeFails = false →
        (build env).1.tempDirExists = false ∧
        "[BUILD] Cleaning up temporary files..." ∈ (build env).1.log)) := by
  refine ⟨exitCode_zero_iff env, fun hf => ⟨exitCode_one env hf, fun hr => ?_⟩⟩
  exact build_temp_removed env hr

/-- C4 witness: a failing core install yields exit status 1 with the
workspace removed, and the all-success environment yields exit status 0. -/
theorem C4_exit_status_witness :
    exitCode envAiderFails = 1 ∧ (build envAiderFails).1.tempDirExists = false ∧
    exitCode envAllOk = 0 := by
  have h := C4_exit_status envAiderFails
  have h0 := C4_exit_status envAllOk
  have hf : successEnv envAiderFails = false := by decide
  exact ⟨(h.2 hf).1, ((h.2 hf).2 (by decide)).1, (h0.1).mpr (by decide)⟩

/-! String path lemmas used for the data-mapping and source-acquisition
claims. -/

theorem data_append (a b : String) : (a ++ b).data = a.data ++ b.data := by
  cases a
  cases b
  rfl

theorem str_append_assoc (a b c : String) : (a ++ b) ++ c = a ++ (b ++ c) := by
  cases a
  cases b
  cases c
  exact congrArg String.mk (List.append_assoc _ _ _)

theorem isPrefixOf_append (l t : List Char) : List.isPrefixOf l (l ++ t) = true := by
  induction l with
  | nil => cases t <;> rfl
  | cons c cs ih => simp [List.isPrefixOf, ih]

theorem under_append (a b : String) : under a (a ++ b) = true := by
  simp [under, data_append, isPrefixOf_append]

theorem under_refl (a : String) : under a a = true := by
  have h := under_append a ""
  rwa [show a ++ "" = a from by cases a; simp] at h

/-- C5 counterexample: the version-metadata record written by
`create_final_package` has no `runtime_version` field; the interpreter
version is stored under the key `python_version` instead, so the claimed
field set is not the record's field set. -/
theorem C5_runtime_version_field_absent :
    ¬ (viSample.map Prod.fst
        = ["build_time", "runtime_version", "platform", "components", "usage"]) ∧
    "runtime_version" ∉ viSample.map Prod.fst ∧
    "python_version" ∈ viSample.map Prod.fst := by
  decide

/-- C5 amended: the version-metadata record is an object with exactly the
fields `build_time`, `python_version` (not `runtime_version`), `platform`,
`components` (a list), and `usage` (a string), and its `build_time` is the
wall-clock reading taken at Packager invocation (model clock 8, the eighth
stage), not at Provisioner invocation (model clock 1). -/
theorem C5_version_record_fields_amended (bt pv : String) (env : Env)
    (h : successEnv env = true) :
    (version_info_record bt pv).map Prod.fst
      = ["build_time", "python_version", "platform", "components", "usage"] ∧
    lookupJ (version_info_record bt pv) "build_time" = some (.jstr bt) ∧
    lookupJ (version_info_record bt pv) "components"
      = some (.jlist ["aider", "python_dependencies"]) ∧
    lookupJ (version_info_record bt pv) "usage"
      = some (.jstr "Internal network with OpenAI Compatible API") ∧
    (build env).1.versionInfo
      = some (version_info_record (get_build_time 8) env.pythonVersion) ∧
    (build env).1.provisionTime = some 1 ∧
    get_build_time 8 ≠ get_build_time 1 := by
  obtain ⟨b1, b2, b3, b4, b5, b6⟩ := build_success_fields env h
  exact ⟨rfl, rfl, rfl, rfl, b2, b3, by decide⟩

/-- C5 witness: in the all-success environment the build writes the version
record with the interpreter version under `python_version` and the Packager
clock reading as `build_time`. -/
theorem C5_version_record_fields_amended_witness :
    (build envAllOk).1.versionInfo
      = some (version_info_record (get_build_time 8) "3.11.0") ∧
    (build envAllOk).1.provisionTime = some 1 := by
  have h := C5_version_record_fields_amended (get_build_time 8) "3.11.0" envAllOk (by decide)
  exact ⟨h.2.2.2.2.1, h.2.2.2.2.2.1⟩

/-- C6 counterexample: not every data-file mapping of the generated spec file
has its source under the source root: whenever the tiktoken probe finds
encoding files, their mappings point into the tiktoken package's data
directory inside the virtualenv. -/
theorem C6_tiktoken_mapping_outside_source_root :
    ((datas "/tmp/aider_build_k/aider_source" (some tkProbe)).all
      (fun m => under "/tmp/aider_build_k/aider_source" m.1)) = false := by
  decide

/-- C6 amended: every data-file mapping of the generated spec file has its
source either under the source root (the two static resource mappings) or
under the probed tiktoken data directory (the tiktoken mappings, including
the whole-directory fallback). -/
theorem C6_data_mappings_under_roots (src : String) (tk : Option TiktokenInfo)
    (m : String × String) (hm : m ∈ datas src tk) :
    under src m.1 = true ∨
    ∃ info, tk = some info ∧ under info.dataDir m.1 = true := by
  rcases tk with _ | info
  · simp [datas, tiktoken_datas] at hm
    rcases hm with h | h <;> subst h <;> exact .inl (under_append _ _)
  · rcases hde : info.dataDirExists
    · simp [datas, tiktoken_datas, hde] at hm
      rcases hm with h | h <;> subst h <;> exact .inl (under_append _ _)
    · rcases hfe : info.encodingFiles with _ | ⟨f, fs⟩
      · simp [datas, tiktoken_datas, hde, hfe] at hm
        rcases hm with h | h | h <;> subst h
        · exact .inl (under_append _ _)
        · exact .inl (under_append _ _)
        · exact .inr ⟨info, rfl, under_refl _⟩
      · simp [datas, tiktoken_datas, hde, hfe, List.mem_map] at hm
        rcases hm with h | h | h | ⟨g, hg, h⟩
        · subst h; exact .inl (under_append _ _)
        · subst h; exact .inl (under_append _ _)
        · right
          refine ⟨info, rfl, ?_⟩
          subst h
          show under info.dataDir ((info.dataDir ++ "/") ++ f) = true
          rw [str_append_assoc]
          exact under_append _ _
        · right
          refine ⟨info, rfl, ?_⟩
          subst h
          show under info.dataDir ((info.dataDir ++ "/") ++ g) = true
          rw [str_append_assoc]
          exact under_append _ _

/-- C6 amended witness: the first static mapping lies under the source
root. -/
theorem C6_data_mappings_under_roots_witness :
    under "/src" ("/src" ++ "/aider/resources", "aider/resources").1 = true ∨
    ∃ info, (some tkProbe) = some info ∧
      under info.dataDir ("/src" ++ "/aider/resources", "aider/resources").1 = true := by
  exact C6_data_mappings_under_roots "/src" (some tkProbe)
    ("/src" ++ "/aider/resources", "aider/resources") (by decide)

/-- C7: the packaging step removes any existing final directory of the
conventional name before copying (`shutil.copytree` would fail on an
existing destination, so removal is what makes the copy a full replace) and
removes any existing archive before creating the new one; whatever final
directory and archive a previous run left in the output directory, after the
step there is exactly one final directory and one archive, both holding
exactly the current staged tree. -/
theorem C7_package_full_replace (env : Env) (s : St) (h : env.packageWriteFails = false) :
    (create_final_package env s).2 = none ∧
    (create_final_package env s).1.stagedFiles
      = upsert s.stagedFiles "version_info.json"
          (renderVersionInfo (version_info_record (get_build_time (s.clock + 1))
            env.pythonVersion)) ∧
    (create_final_package env s).1.finalDir
      = some ((create_final_package env s).1.stagedFiles) ∧
    (create_final_package env s).1.archive
      = some ((create_final_package env s).1.stagedFiles) := by
  rcases hf : s.finalDir with _ | fd <;> rcases ha : s.archive with _ | ar <;>
    simp [create_final_package, copytree_to_final, hf, ha, h, blog, tick, get_build_time]

/-- C7 witness: starting from a state with a stale final directory and
archive, packaging succeeds and both outputs hold exactly the new staged
tree. -/
theorem C7_package_full_replace_witness :
    (create_final_package envAllOk stStale).2 = none ∧
    (create_final_package envAllOk stStale).1.finalDir
      = some ((create_final_package envAllOk stStale).1.stagedFiles) ∧
    (create_final_package envAllOk stStale).1.archive
      = some ((create_final_package envAllOk stStale).1.stagedFiles) := by
  have h := C7_package_full_replace envAllOk stStale (by decide)
  exact ⟨h.1, h.2.2.1, h.2.2.2⟩

/-- C8: when the current working directory contains `pyproject.toml` whose
contents mention `aider-chat`, the local tree is copied into the workspace
with the build-artifact and cache ignore patterns; otherwise the fixed
remote archive URL is fetched and, the fetched archive having the single
top-level directory `aider-main`, that single top-level extracted directory
(`<temp>/aider-main`) is used as the source root. -/
theorem C8_source_acquisition (me : Bool) (mc tempDir : String) (z : ZipArchive) (d : String) :
    (me = true → containsSub mc "aider-chat" = true →
      acquire_source me mc tempDir = .localCopy (tempDir ++ "/aider_source") ignore_patterns) ∧
    ((me && containsSub mc "aider-chat") = false →
      acquire_source me mc tempDir = .remoteFetch remote_url (tempDir ++ "/aider-main")) ∧
    ((me && containsSub mc "aider-chat") = false → topLevelDirs z = [d] → d = "aider-main" →
      acquire_source me mc tempDir = .remoteFetch remote_url (tempDir ++ "/" ++ d)) := by
  refine ⟨fun h1 h2 => ?_, fun h => ?_, fun h hz hd => ?_⟩
  · simp [acquire_source, h1, h2]
  · simp [acquire_source, h]
  · subst hd
    have he : tempDir ++ "/" ++ "aider-main" = tempDir ++ "/aider-main" := by
      rw [str_append_assoc]
      exact congrArg (tempDir ++ ·) (by decide)
    rw [he]
    simp [acquire_source, h]

/-- C8 witness: both acquisition branches at concrete inputs, the remote one
using the single top-level directory of a concrete archive. -/
theorem C8_source_acquisition_witness :
    acquire_source true "name = aider-chat" "/tmp/b"
      = .localCopy ("/tmp/b" ++ "/aider_source") ignore_patterns ∧
    acquire_source false "" "/tmp/b"
      = .remoteFetch remote_url ("/tmp/b" ++ "/" ++ "aider-main") := by
  exact ⟨(C8_source_acquisition true "name = aider-chat" "/tmp/b" zMain "aider-main").1
      rfl (by decide),
    (C8_source_acquisition false "" "/tmp/b" zMain "aider-main").2.2
      (by decide) (by decide) rfl⟩

/-- C9: the configuration template and the model-settings template written
into the staged tree are fixed literals, identical on every successful run
(they take no input at all), and their credential, model and endpoint fields
hold only the placeholder values `your-api-key`, `openai/your-model-name`
and `http://your-internal-api-server:port/v1`; no resolved credential value
exists anywhere in the builder for them to leak. -/
theorem C9_templates_placeholders_only (env : Env) (h : successEnv env = true) :
    fileLookup (build env).1.stagedFiles ".aider.conf.yml" = some config_content ∧
    fileLookup (build env).1.stagedFiles ".aider.model.settings.yml"
      = some model_settings_content ∧
    yamlValue config_content "model" = some "openai/your-model-name" ∧
    yamlValue config_content "openai-api-base"
      = some "http://your-internal-api-server:port/v1" ∧
    yamlValue config_content "openai-api-key" = some "your-api-key" ∧
    containsSub model_settings_content "name: openai/your-model-name" = true := by
  obtain ⟨b1, b2, b3, b4, b5, b6⟩ := build_success_fields env h
  exact ⟨b5, b6, by decide, by decide, by decide, by decide⟩

/-- C9 witness: the all-success run writes exactly the fixed templates. -/
theorem C9_templates_placeholders_only_witness :
    fileLookup (build envAllOk).1.stagedFiles ".aider.conf.yml" = some config_content ∧
    yamlValue config_content "openai-api-key" = some "your-api-key" := by
  have h := C9_templates_placeholders_only envAllOk (by decide)
  exact ⟨h.1, h.2.2.2.2.1⟩

/-- C10: calling `cleanup` when `self.temp_dir` is `None` or when the
directory no longer exists is an exact no-op that raises nothing, and a
removal failure inside `shutil.rmtree(..., ignore_errors=True)` is
suppressed, so `cleanup` never raises for any state. -/
theorem C10_cleanup_noop_never_raises (rmFails : Bool) (s : St) :
    (cleanup rmFails s).2 = none ∧
    (s.tempDirSet = false → cleanup rmFails s = (s, none)) ∧
    (s.tempDirExists = false → cleanup rmFails s = (s, none)) := by
  refine ⟨cleanup_snd rmFails s, fun h => ?_, fun h => ?_⟩ <;> simp [cleanup, h]

/-- C10 witness: on the fresh state with no workspace, `cleanup` is a no-op
even when removal would fail. -/
theorem C10_cleanup_noop_never_raises_witness :
    (cleanup true stNoTemp).2 = none ∧ cleanup true stNoTemp = (stNoTemp, none) := by
  have h := C10_cleanup_noop_never_raises true stNoTemp
  exact ⟨h.1, h.2.1 rfl⟩
